import Mathlib

/-!
Verification development for the RV-Optimization doppler library.

The embedded definitions follow `dopplerlib/problem_of_the_kepler.py`,
`dopplerlib/decorators.py`, `dopplerlib/optimization.py` and
`dopplerlib/observations_data.py`.  Machine floats are modelled by `ℝ`;
numpy arrays and Python lists by `List ℝ` (elementwise numpy operations
become `List.zipWith`/`List.map` over lists of equal length).  The
source's unbounded `while` loop in the Kepler solver is modelled with an
explicit fuel parameter: `kepler_equation_solver ... fuel = some E`
states that the loop exits within `fuel` guard checks and returns `E`,
while `keplerRun` is the total fuel-truncated unfolding used inside the
radial-velocity pipeline (its value coincides with the loop's returned
value whenever the loop terminates within the given fuel).
-/

noncomputable section

open Classical

/-- Reduction `numpy.mod(x, p)` for a positive modulus `p`, as used to
scale anomalies into `[0, 2π)`: `x - p * ⌊x / p⌋`. -/
def realMod (x p : ℝ) : ℝ := x - p * ⌊x / p⌋

/-- Closure `kepler_function` from `kepler_equation_solver`
(`problem_of_the_kepler.py`, line 27): `f(E) = M - E + e * sin E`, where
`M` is the mean anomaly already reduced into `[0, 2π)`. -/
def kepler_function (mean_anomaly orbital_eccentricity anomaly : ℝ) : ℝ :=
  mean_anomaly - anomaly + orbital_eccentricity * Real.sin anomaly

/-- Closure `kepler_function_derivative` (line 30): `f'(E) = e * cos E - 1`. -/
def kepler_function_derivative (orbital_eccentricity anomaly : ℝ) : ℝ :=
  orbital_eccentricity * Real.cos anomaly - 1

/-- One Newton-Raphson update of the loop body (line 34):
`E += -f(E) / f'(E)`. -/
def kepler_newton_step (M e E : ℝ) : ℝ :=
  E + -kepler_function M e E / kepler_function_derivative e E

/-- The `while |f(E)| >= epsilon` loop (lines 33-34), fuel-indexed:
`some E` exactly when the loop exits within `fuel` guard checks, `none`
when the fuel is exhausted before the residual drops below `epsilon`. -/
def keplerLoop (M e ε : ℝ) : ℕ → ℝ → Option ℝ
  | 0, _ => none
  | n + 1, E =>
    if |kepler_function M e E| < ε then some E
    else keplerLoop M e ε n (kepler_newton_step M e E)

/-- `kepler_equation_solver(mean_anomaly, orbital_eccentricity, epsilon)`
(lines 15-36).  The mean anomaly is first reduced by `numpy.mod` into
`[0, 2π)` and the initial guess is that reduced value; the source's
default `epsilon` is `1.0e-10`, passed here explicitly. -/
def kepler_equation_solver (mean_anomaly orbital_eccentricity epsilon : ℝ)
    (fuel : ℕ) : Option ℝ :=
  keplerLoop (realMod mean_anomaly (2 * Real.pi)) orbital_eccentricity epsilon fuel
    (realMod mean_anomaly (2 * Real.pi))

/-- Total fuel-truncated unfolding of the same loop: after `fuel` guard
checks the current iterate is returned as-is.  Whenever the source loop
terminates within `fuel` checks this equals the value it returns. -/
def keplerGo (M e ε : ℝ) : ℕ → ℝ → ℝ
  | 0, E => E
  | n + 1, E =>
    if |kepler_function M e E| < ε then E
    else keplerGo M e ε n (kepler_newton_step M e E)

/-- Total counterpart of `kepler_equation_solver`, used to embed the
radial-velocity pipeline (which consumes the solver's value). -/
def keplerRun (mean_anomaly orbital_eccentricity epsilon : ℝ) (fuel : ℕ) : ℝ :=
  keplerGo (realMod mean_anomaly (2 * Real.pi)) orbital_eccentricity epsilon fuel
    (realMod mean_anomaly (2 * Real.pi))

/-- Elementwise numpy operations over equal-length arrays. -/
def listAdd (xs ys : List ℝ) : List ℝ := List.zipWith (· + ·) xs ys

/-- Elementwise numpy subtraction. -/
def listSub (xs ys : List ℝ) : List ℝ := List.zipWith (· - ·) xs ys

/-- Elementwise numpy division. -/
def listDiv (xs ys : List ℝ) : List ℝ := List.zipWith (· / ·) xs ys

/-- `multi_kepler_equation_solver` (lines 39-47): `numpy.vectorize`
applies the scalar solver independently to every mean anomaly, keeping
the input order; here in its total fuel-truncated form. -/
def multi_kepler_equation_solver (fuel : ℕ) (mean_anomaly_list : List ℝ)
    (orbital_eccentricity epsilon : ℝ) : List ℝ :=
  mean_anomaly_list.map (fun M => keplerRun M orbital_eccentricity epsilon fuel)

/-- `check_the_single_bound` (`decorators.py`, lines 19-21): `none`
models Python's `None` (unbounded side); both comparisons are
inclusive. -/
def check_the_single_bound (value : ℝ) (bound : Option ℝ × Option ℝ) : Prop :=
  (∀ m ∈ bound.1, m ≤ value) ∧ (∀ M ∈ bound.2, value ≤ M)

/-- The `all(map(check_the_single_bound, arguments[offset:], bounds))`
test (line 26), for the in-repo uses where the argument slice and the
bound list have equal length. -/
def check_all_bounds (args : List ℝ) (bounds : List (Option ℝ × Option ℝ)) : Prop :=
  ∀ p ∈ args.zip bounds, check_the_single_bound p.1 p.2

/-- `check_the_bounds_of_arguments` (`decorators.py`, lines 11-33) with
`offset = 1`: the first argument (the time array) is skipped, the
remaining arguments are checked against `bounds`; on violation the
wrapped function is not evaluated and `[out_of_bound_value] *
len(arguments[0])` is returned. -/
def check_the_bounds_of_arguments (bounds : List (Option ℝ × Option ℝ))
    (out_of_bound_value : ℝ) (function : List ℝ → List ℝ → List ℝ)
    (time : List ℝ) (args : List ℝ) : List ℝ :=
  if check_all_bounds args bounds then function time args
  else List.replicate time.length out_of_bound_value

/-- Bound list of the `doppler_solver` decoration
(`problem_of_the_kepler.py`, line 51):
`[(0, None), (0, None), (0, 2*pi), (0, None), (0, 1)]` for
`(tau, K, omega, P, e)`. -/
def doppler_bounds : List (Option ℝ × Option ℝ) :=
  [(some 0, none), (some 0, none), (some 0, some (2 * Real.pi)),
   (some 0, none), (some 0, some 1)]

/-- Undecorated body of `doppler_solver` (lines 52-85): period is turned
into the angular rate `2π/P`, the mean anomaly is reduced mod `2π`, the
Kepler solver provides the eccentric anomaly (default tolerance
`1.0e-10`), and the radial velocity is
`K * (cos(ω + ν) + e * cos ω)` with
`ν = 2 * atan(sqrt((1+e)/(1-e)) * tan(E/2))`.  numpy's elementwise
evaluation over the time array is a `List.map`. -/
def doppler_core (fuel : ℕ) (time : List ℝ)
    (time_of_perihelion_passage half_amplitude_of_the_signal
      longitude_of_the_perihelion orbital_period eccentricity : ℝ) : List ℝ :=
  time.map (fun t =>
    let rate := 2 * Real.pi / orbital_period
    let mean_anomaly := realMod (rate * (t - time_of_perihelion_passage)) (2 * Real.pi)
    let eccentric_anomaly := keplerRun mean_anomaly eccentricity (1 / 10 ^ 10) fuel
    let true_anomaly := 2 * Real.arctan
      (Real.sqrt ((1 + eccentricity) / (1 - eccentricity)) * Real.tan (eccentric_anomaly / 2))
    half_amplitude_of_the_signal *
      (Real.cos (longitude_of_the_perihelion + true_anomaly) +
        eccentricity * Real.cos longitude_of_the_perihelion))

/-- `doppler_solver` (lines 51-85): the decorated single-body model,
with the sentinel `1e+10` on any bound violation. -/
def doppler_solver (fuel : ℕ) (time : List ℝ)
    (time_of_perihelion_passage half_amplitude_of_the_signal
      longitude_of_the_perihelion orbital_period eccentricity : ℝ) : List ℝ :=
  check_the_bounds_of_arguments doppler_bounds (10 ^ 10)
    (fun t args => doppler_core fuel t (args.getD 0 0) (args.getD 1 0) (args.getD 2 0)
      (args.getD 3 0) (args.getD 4 0))
    time
    [time_of_perihelion_passage, half_amplitude_of_the_signal,
     longitude_of_the_perihelion, orbital_period, eccentricity]

/-- Bound list of the `doppler_solver_for_circular_orbit` decoration
(line 88): `[(0, None), (0, None), (0, None)]` for `(tau, K, P)`. -/
def circular_bounds : List (Option ℝ × Option ℝ) :=
  [(some 0, none), (some 0, none), (some 0, none)]

/-- Undecorated body of `doppler_solver_for_circular_orbit`
(lines 89-112): here the period argument is used directly as the angular
rate, the eccentricity is fixed to `0`, `ν = 2 * atan(tan(E/2))` and
`V = K * cos ν`. -/
def circular_core (fuel : ℕ) (time : List ℝ)
    (time_of_perihelion_passage half_amplitude_of_the_signal orbital_period : ℝ) :
    List ℝ :=
  time.map (fun t =>
    let mean_anomaly := realMod (orbital_period * (t - time_of_perihelion_passage)) (2 * Real.pi)
    let eccentric_anomaly := keplerRun mean_anomaly 0 (1 / 10 ^ 10) fuel
    let true_anomaly := 2 * Real.arctan (Real.tan (eccentric_anomaly / 2))
    half_amplitude_of_the_signal * Real.cos true_anomaly)

/-- `doppler_solver_for_circular_orbit` (lines 88-112), decorated. -/
def doppler_solver_for_circular_orbit (fuel : ℕ) (time : List ℝ)
    (time_of_perihelion_passage half_amplitude_of_the_signal orbital_period : ℝ) :
    List ℝ :=
  check_the_bounds_of_arguments circular_bounds (10 ^ 10)
    (fun t args => circular_core fuel t (args.getD 0 0) (args.getD 1 0) (args.getD 2 0))
    time
    [time_of_perihelion_passage, half_amplitude_of_the_signal, orbital_period]

/-- Application of `doppler_solver` to a 5-element parameter slice, as in
`doppler_solver(time, *orbital_parameters[i:i+5])` (line 123); Python
unpacks the slice positionally onto the five orbital parameters. -/
def doppler_solver_slice (fuel : ℕ) (time ps : List ℝ) : List ℝ :=
  doppler_solver fuel time (ps.getD 0 0) (ps.getD 1 0) (ps.getD 2 0) (ps.getD 3 0)
    (ps.getD 4 0)

/-- `doppler_solver_for_n_planets` (lines 115-123): `numpy.sum` of the
per-planet signals over slices `params[5k : 5k+5]`; the empty sum is the
scalar `0`, which numpy broadcasts over the time array, modelled as the
all-zero array. -/
def doppler_solver_for_n_planets (fuel number_of_planets : ℕ) (time : List ℝ)
    (orbital_parameters : List ℝ) : List ℝ :=
  ((List.range number_of_planets).map
      (fun k => doppler_solver_slice fuel time ((orbital_parameters.drop (5 * k)).take 5))).foldl
    listAdd (List.replicate time.length 0)

/-- Python slice `l[-k:]` for a natural `k`: the trailing `k` elements,
except that `l[-0:]` is the whole list. -/
def pySliceLast (l : List ℝ) (k : ℕ) : List ℝ :=
  if k = 0 then l else l.drop (l.length - k)

/-- Python `int(x)`: truncation toward zero. -/
def pyInt (x : ℝ) : ℤ := if 0 ≤ x then ⌊x⌋ else -⌊-x⌋

/-- Python list indexing `l[i]` with an integer index: non-negative
indices from the front, negative indices from the back.  The in-repo
uses index within range; the out-of-range `IndexError` is modelled by
the default `0`. -/
def pyGet (l : List ℝ) (i : ℤ) : ℝ :=
  if 0 ≤ i then l.getD i.toNat 0 else l.getD (l.length - (-i).toNat) 0

/-- `DopplerOptimizationModel.__init__` (`optimization.py`, lines
20-25): the flat parameter list and the optional uncertainty list
(`None` when absent, as after stage 1). -/
structure DopplerOptimizationModel where
  number_of_planets : ℕ
  number_of_telescopes : ℕ
  orbital_parameters : List ℝ
  parameters_uncertainties : Option (List ℝ)

/-- `self.parameters_count = len(self.orbital_parameters)` (line 25). -/
def DopplerOptimizationModel.parameters_count (m : DopplerOptimizationModel) : ℕ :=
  m.orbital_parameters.length

/-- `get_orbital_parameters` (lines 34-35): slice
`orbital_parameters[5k : 5(k+1)]`. -/
def DopplerOptimizationModel.get_orbital_parameters (m : DopplerOptimizationModel)
    (planet_number : ℕ) : List ℝ :=
  (m.orbital_parameters.drop (5 * planet_number)).take 5

/-- `get_offsets` (lines 40-41): slice
`orbital_parameters[-number_of_telescopes:]`. -/
def DopplerOptimizationModel.get_offsets (m : DopplerOptimizationModel) : List ℝ :=
  pySliceLast m.orbital_parameters m.number_of_telescopes

/-- `split` (lines 46-55): one single-body model per planet, carrying
that planet's 5 parameters concatenated with all shared instrument
offsets. -/
def DopplerOptimizationModel.split (m : DopplerOptimizationModel) :
    List DopplerOptimizationModel :=
  (List.range m.number_of_planets).map (fun planet_id =>
    ⟨1, m.number_of_telescopes, m.get_orbital_parameters planet_id ++ m.get_offsets, none⟩)

/-- `radial_velocities` (lines 69-70). -/
def DopplerOptimizationModel.radial_velocities (fuel : ℕ)
    (m : DopplerOptimizationModel) (time_range : List ℝ) : List ℝ :=
  doppler_solver_for_n_planets fuel m.number_of_planets time_range m.orbital_parameters

/-- `offsets_of_instruments` (lines 72-74): each telescope id indexes
directly into the trailing offsets slice. -/
def DopplerOptimizationModel.offsets_of_instruments (m : DopplerOptimizationModel)
    (list_of_telescopes : List ℤ) : List ℝ :=
  list_of_telescopes.map (fun telescope_id => pyGet m.get_offsets telescope_id)

/-- `ObservationsData.__init__` (`observations_data.py`, lines 11-19). -/
structure ObservationsData where
  julian_times : List ℝ
  radial_velocities : List ℝ
  uncertainties : List ℝ
  ids_of_telescopes : List ℤ

/-- `self.count = len(self.julian_times)` (line 17). -/
def ObservationsData.count (o : ObservationsData) : ℕ := o.julian_times.length

/-- `self.telescopes_count = len(set(self.ids_of_telescopes))` (line 19). -/
def ObservationsData.telescopes_count (o : ObservationsData) : ℕ :=
  o.ids_of_telescopes.dedup.length

/-- `residues_array` (`optimization.py`, lines 76-81):
`modeled - observed + offsets`, elementwise. -/
def DopplerOptimizationModel.residues_array (fuel : ℕ)
    (m : DopplerOptimizationModel) (observations : ObservationsData) : List ℝ :=
  listAdd
    (listSub (m.radial_velocities fuel observations.julian_times)
      observations.radial_velocities)
    (m.offsets_of_instruments observations.ids_of_telescopes)

/-- `quality_of_the_fit` (lines 57-67):
`sum((residues / uncertainties) ** 2) / (count - parameters_count - 1)`.
The denominator is Python integer arithmetic, cast to `ℝ` for the final
(numpy float) division; no guard precedes the division. -/
def DopplerOptimizationModel.quality_of_the_fit (fuel : ℕ)
    (m : DopplerOptimizationModel) (observations : ObservationsData) : ℝ :=
  let residues := m.residues_array fuel observations
  let chi2_sum := ((listDiv residues observations.uncertainties).map (fun x => x ^ 2)).sum
  chi2_sum / ((observations.count : ℝ) - (m.parameters_count : ℝ) - 1)

/-- Stable insertion used to model Python's stable
`sorted(rows, key=lambda row: row[0])`. -/
def insertByTime (r : ℝ × ℝ × ℝ × ℝ) :
    List (ℝ × ℝ × ℝ × ℝ) → List (ℝ × ℝ × ℝ × ℝ)
  | [] => [r]
  | s :: rest => if r.1 ≤ s.1 then r :: s :: rest else s :: insertByTime r rest

/-- Stable sort by the first column (observation time). -/
def sortByTime (rows : List (ℝ × ℝ × ℝ × ℝ)) : List (ℝ × ℝ × ℝ × ℝ) :=
  rows.foldr insertByTime []

/-- `numpy.mean`. -/
def numpyMean (l : List ℝ) : ℝ := l.sum / l.length

/-- `ObservationsData.load_data` (`observations_data.py`, lines 24-64).
The `numpy.loadtxt` result is the given row list (file I/O is an
external collaborator); the empty-input `assert` is modelled by `none`.
`convert_indexes_to_integers` is modelled in its default `True` form
(the `False` branch would keep raw float ids, which the offset lookup
cannot index with).  Remaining keyword options keep their source order
and defaults. -/
def ObservationsData.load_data (rows : List (ℝ × ℝ × ℝ × ℝ))
    (sort_observations scale_to_the_mean convert_kmps_to_mps scale_to_the_jitter : Bool)
    (jitter_value : ℝ) : Option ObservationsData :=
  if rows.isEmpty then none
  else
    let data := if sort_observations then sortByTime rows else rows
    let julian_times := data.map (fun r => r.1)
    let radial_velocities0 := data.map (fun r => r.2.1)
    let uncertainties0 := data.map (fun r => r.2.2.1)
    let radial_velocities1 :=
      if scale_to_the_mean then radial_velocities0.map (fun v => v - numpyMean radial_velocities0)
      else radial_velocities0
    let radial_velocities2 :=
      if convert_kmps_to_mps then radial_velocities1.map (fun v => v * 1000)
      else radial_velocities1
    let uncertainties1 :=
      if scale_to_the_jitter then
        uncertainties0.map (fun u => Real.sqrt (u ^ 2 + jitter_value ^ 2))
      else uncertainties0
    let ids_of_telescopes := data.map (fun r => pyInt r.2.2.2)
    some ⟨julian_times, radial_velocities2, uncertainties1, ids_of_telescopes⟩

/-- `numpy.diagonal` of a square matrix held as a row list. -/
def numpy_diagonal (m : List (List ℝ)) : List ℝ :=
  (List.range m.length).map (fun i => (m.getD i []).getD i 0)

/-- `gradient_optimization` (`optimization.py`, lines 144-156) after the
external `scipy.optimize.curve_fit` call: the optimizer's output
`(optimal_paramters, covariation_array)` is taken as given, and the
returned model's uncertainties are
`numpy.diagonal(covariation_array) ** 2` (line 154). -/
def gradient_optimization (number_of_planets number_of_telescopes : ℕ)
    (optimal_paramters : List ℝ) (covariation_array : List (List ℝ)) :
    DopplerOptimizationModel :=
  ⟨number_of_planets, number_of_telescopes, optimal_paramters,
    some ((numpy_diagonal covariation_array).map (fun x => x ^ 2))⟩

theorem realMod_nonneg {x p : ℝ} (hp : 0 < p) : 0 ≤ realMod x p := by
  have h1 : (⌊x / p⌋ : ℝ) ≤ x / p := Int.floor_le _
  have h2 : (⌊x / p⌋ : ℝ) * p ≤ x := (le_div_iff hp).mp h1
  unfold realMod
  nlinarith

theorem realMod_lt {x p : ℝ} (hp : 0 < p) : realMod x p < p := by
  have h1 : x / p < ⌊x / p⌋ + 1 := Int.lt_floor_add_one _
  have h2 : x < ((⌊x / p⌋ : ℝ) + 1) * p := (div_lt_iff hp).mp h1
  unfold realMod
  nlinarith

theorem realMod_eq_self {x p : ℝ} (hx : 0 ≤ x) (hxp : x < p) : realMod x p = x := by
  have hp : 0 < p := lt_of_le_of_lt hx hxp
  have hfl : ⌊x / p⌋ = 0 := by
    rw [Int.floor_eq_zero_iff]
    constructor
    · exact div_nonneg hx hp.le
    · exact (div_lt_one hp).mpr hxp
  unfold realMod
  rw [hfl]
  simp

theorem keplerLoop_residual {M e ε : ℝ} :
    ∀ {fuel : ℕ} {E E' : ℝ}, keplerLoop M e ε fuel E = some E' →
      |kepler_function M e E'| < ε := by
  intro fuel
  induction fuel with
  | zero => intro E E' h; simp [keplerLoop] at h
  | succ n ih =>
    intro E E' h
    unfold keplerLoop at h
    split at h
    · cases h
      assumption
    · exact ih h

/-- Whenever the loop returns within the fuel budget, the total
fuel-truncated unfolding computes the same value. -/
theorem keplerLoop_go_agree {M e ε : ℝ} :
    ∀ {fuel : ℕ} {E E' : ℝ}, keplerLoop M e ε fuel E = some E' →
      keplerGo M e ε fuel E = E' := by
  intro fuel
  induction fuel with
  | zero => intro E E' h; simp [keplerLoop] at h
  | succ n ih =>
    intro E E' h
    unfold keplerLoop at h
    unfold keplerGo
    split at h
    · cases h
      rw [if_pos]
      assumption
    · rw [if_neg]
      · exact ih h
      · assumption

/-- Claim C2: for every eccentricity `e ∈ [0, 0.999]` and mean anomaly
`M ∈ [0, 2π)`, any value `E` returned by `kepler_equation_solver` with
the default tolerance `1e-10` satisfies `|M - E + e * sin E| < 1e-9`. -/
theorem kepler_solver_residual_bound (fuel : ℕ) (M e E : ℝ)
    (he0 : 0 ≤ e) (he1 : e ≤ 999 / 1000) (hM0 : 0 ≤ M) (hM2 : M < 2 * Real.pi)
    (hret : kepler_equation_solver M e (1 / 10 ^ 10) fuel = some E) :
    |M - E + e * Real.sin E| < 1 / 10 ^ 9 := by
  unfold kepler_equation_solver at hret
  rw [realMod_eq_self hM0 hM2] at hret
  have h := keplerLoop_residual hret
  unfold kepler_function at h
  have : (1 : ℝ) / 10 ^ 10 < 1 / 10 ^ 9 := by norm_num
  linarith [abs_nonneg (M - E + e * Real.sin E)]

/-- Claim C1: whenever some orbital parameter violates its declared
bound, the decorated single-body model does not evaluate the wrapped
orbital pipeline (the result is independent of it) and returns the
sentinel repeated to the length of the time input; in particular with
eccentricity `3/2` and a length-5 time array the result is five copies
of `1e+10`. -/
theorem doppler_solver_bound_violation_sentinel
    (bounds : List (Option ℝ × Option ℝ)) (v : ℝ)
    (f : List ℝ → List ℝ → List ℝ) (time : List ℝ) (args : List ℝ)
    (hviol : ¬ check_all_bounds args bounds)
    (fuel : ℕ) (time5 : List ℝ) (h5 : time5.length = 5)
    (tau K omega P : ℝ) :
    check_the_bounds_of_arguments bounds v f time args =
        List.replicate time.length v ∧
      doppler_solver fuel time5 tau K omega P (3 / 2) =
        List.replicate 5 (10 ^ 10) := by
  constructor
  · unfold check_the_bounds_of_arguments
    rw [if_neg hviol]
  · unfold doppler_solver check_the_bounds_of_arguments
    rw [if_neg, h5]
    intro hall
    have hmem : ((3 : ℝ) / 2, (some (0 : ℝ), some (1 : ℝ))) ∈
        ([tau, K, omega, P, 3 / 2].zip doppler_bounds) := by
      simp [doppler_bounds]
    have h := (hall _ hmem).2
    have h1 : (3 : ℝ) / 2 ≤ 1 := by
      have := h 1
      simp at this
      exact this
    norm_num at h1

/-- Witness for C1: a concrete violating call (`e = 3/2`, all other
parameters `0`, time array `[0,0,0,0,0]`). -/
theorem doppler_solver_bound_violation_sentinel_witness :
    check_the_bounds_of_arguments doppler_bounds (10 ^ 10)
        (fun _ _ => []) [0, 0, 0, 0, 0] [0, 0, 0, 0, 3 / 2] =
        List.replicate 5 (10 ^ 10) ∧
      doppler_solver 1 [0, 0, 0, 0, 0] 0 0 0 0 (3 / 2) =
        List.replicate 5 (10 ^ 10) := by
  have hviol : ¬ check_all_bounds [0, 0, 0, 0, 3 / 2] doppler_bounds := by
    intro hall
    have hmem : ((3 : ℝ) / 2, (some (0 : ℝ), some (1 : ℝ))) ∈
        ([(0 : ℝ), 0, 0, 0, 3 / 2].zip doppler_bounds) := by
      simp [doppler_bounds]
    have h := (hall _ hmem).2
    have h1 : (3 : ℝ) / 2 ≤ 1 := by
      have := h 1
      simp at this
      exact this
    norm_num at h1
  have h := doppler_solver_bound_violation_sentinel doppler_bounds (10 ^ 10)
    (fun _ _ => []) [0, 0, 0, 0, 0] [0, 0, 0, 0, 3 / 2] hviol 1 [0, 0, 0, 0, 0]
    (by simp) 0 0 0 0
  simpa using h

/-- Witness for C2: at `M = 0`, `e = 0` the loop returns the initial
guess `0` after zero Newton iterations, and its residual is below the
required bound. -/
theorem kepler_solver_residual_bound_witness :
    |(0 : ℝ) - 0 + 0 * Real.sin 0| < 1 / 10 ^ 9 := by
  have hπ := Real.pi_pos
  refine kepler_solver_residual_bound 1 0 0 0 le_rfl (by norm_num) le_rfl
    (by linarith) ?_
  have hmod : realMod 0 (2 * Real.pi) = 0 := realMod_eq_self le_rfl (by linarith)
  unfold kepler_equation_solver
  rw [hmod]
  unfold keplerLoop
  rw [if_pos]
  unfold kepler_function
  simp

theorem listAdd_replicate_zero : ∀ xs : List ℝ, listAdd (List.replicate xs.length 0) xs = xs := by
  intro xs
  induction xs with
  | nil => rfl
  | cons x xs ih =>
    simp only [List.length_cons, List.replicate_succ, listAdd, List.zipWith_cons_cons, zero_add]
    exact congrArg (x :: ·) ih

theorem doppler_solver_length (fuel : ℕ) (time : List ℝ) (a b c d e : ℝ) :
    (doppler_solver fuel time a b c d e).length = time.length := by
  unfold doppler_solver check_the_bounds_of_arguments
  split
  · simp [doppler_core]
  · simp

/-- For a single planet the multi-planet sum collapses to one decorated
single-body evaluation on the first 5-element slice. -/
theorem n_planets_one_eq (fuel : ℕ) (t ps : List ℝ) :
    doppler_solver_for_n_planets fuel 1 t ps = doppler_solver_slice fuel t (ps.take 5) := by
  unfold doppler_solver_for_n_planets
  have h1 : List.range 1 = [0] := rfl
  rw [h1]
  simp only [List.map_cons, List.map_nil, List.foldl_cons, List.foldl_nil,
    Nat.mul_zero, List.drop_zero]
  have hlen : (doppler_solver_slice fuel t (ps.take 5)).length = t.length := by
    unfold doppler_solver_slice
    exact doppler_solver_length fuel t _ _ _ _ _
  rw [← hlen]
  exact listAdd_replicate_zero _

/-- Claim C7: `doppler_solver_for_n_planets` with one planet equals the
single-body `doppler_solver` on the first five parameters, for every
time array and any trailing parameters, in particular for parameter
values satisfying the single-body bounds. -/
theorem n_planets_one_matches_single (fuel : ℕ) (t : List ℝ) (a b c d e : ℝ)
    (rest : List ℝ) (hb : check_all_bounds [a, b, c, d, e] doppler_bounds) :
    doppler_solver_for_n_planets fuel 1 t (a :: b :: c :: d :: e :: rest) =
      doppler_solver fuel t a b c d e := by
  rw [n_planets_one_eq]
  unfold doppler_solver_slice
  simp [List.take_succ_cons]

/-- Witness for C7: a concrete in-bounds parameter vector. -/
theorem n_planets_one_matches_single_witness :
    doppler_solver_for_n_planets 1 1 [0] (0 :: 0 :: 0 :: 1 :: 0 :: []) =
      doppler_solver 1 [0] 0 0 0 1 0 := by
  have hπ := Real.pi_pos
  refine n_planets_one_matches_single 1 [0] 0 0 0 1 0 [] ?_
  intro p hp
  simp only [doppler_bounds, List.zip_cons_cons, List.zip_nil_right, List.mem_cons,
    List.not_mem_nil, or_false] at hp
  rcases hp with h | h | h | h | h <;> subst h <;>
    constructor <;> intro x hx <;> simp_all <;> linarith

theorem join_slices (ps : List ℝ) :
    ∀ N : ℕ, ((List.range N).map (fun k => (ps.drop (5 * k)).take 5)).flatten = ps.take (5 * N) := by
  intro N
  induction N with
  | zero => simp
  | succ n ih =>
    rw [List.range_succ, List.map_append, List.flatten_append, ih]
    simp only [List.map_cons, List.map_nil, List.flatten_cons, List.flatten_nil, List.append_nil]
    rw [Nat.mul_succ, List.take_add]

/-- Claim C6: for a model built from a flat list of length
`5 * bodyCount + instrumentCount` (with at least one instrument),
concatenating the per-body parameter slices followed by the offsets
slice reconstructs the original flat list. -/
theorem parameter_slices_round_trip (N K : ℕ) (ps : List ℝ)
    (hlen : ps.length = 5 * N + K) (hK : 1 ≤ K) :
    ((List.range N).map
        (fun k => (DopplerOptimizationModel.mk N K ps none).get_orbital_parameters k)).flatten ++
      (DopplerOptimizationModel.mk N K ps none).get_offsets = ps := by
  have h1 : ∀ k, (DopplerOptimizationModel.mk N K ps none).get_orbital_parameters k
      = (ps.drop (5 * k)).take 5 := fun k => rfl
  have h2 : (DopplerOptimizationModel.mk N K ps none).get_offsets = ps.drop (5 * N) := by
    show pySliceLast ps K = ps.drop (5 * N)
    unfold pySliceLast
    rw [if_neg (by omega)]
    congr 1
    omega
  simp only [h1]
  rw [join_slices, h2, List.take_append_drop]

/-- Witness for C6: a concrete two-planet, one-instrument model. -/
theorem parameter_slices_round_trip_witness :
    ((List.range 2).map
        (fun k => (DopplerOptimizationModel.mk 2 1
          [1, 2, 3, 4, 5, 6, 7, 8, 9, 10, 11] none).get_orbital_parameters k)).flatten ++
      (DopplerOptimizationModel.mk 2 1
        [1, 2, 3, 4, 5, 6, 7, 8, 9, 10, 11] none).get_offsets =
      [1, 2, 3, 4, 5, 6, 7, 8, 9, 10, 11] :=
  parameter_slices_round_trip 2 1 [1, 2, 3, 4, 5, 6, 7, 8, 9, 10, 11] (by simp) le_rfl

theorem getD_map_range {β : Type} (f : ℕ → β) (n i : ℕ) (hi : i < n) (d : β) :
    ((List.range n).map f).getD i d = f i := by
  have hlen : i < ((List.range n).map f).length := by simpa
  rw [List.getD_eq_getElem _ d hlen]
  simp

/-- Claim C8: the model returned by the stage-2 gradient refinement
carries, at every index of the covariance matrix diagonal, the square of
that diagonal entry as its parameter uncertainty. -/
theorem gradient_optimization_squared_diagonal (np nt : ℕ) (ps : List ℝ)
    (cov : List (List ℝ)) (i : ℕ) (hi : i < cov.length) :
    ((gradient_optimization np nt ps cov).parameters_uncertainties.getD []).getD i 0 =
      ((cov.getD i []).getD i 0) ^ 2 := by
  unfold gradient_optimization numpy_diagonal
  simp only [Option.getD_some, List.map_map]
  exact getD_map_range _ _ _ hi _

/-- Witness for C8: a concrete 1x1 covariance matrix `[[2]]`, whose
stored uncertainty is `4`. -/
theorem gradient_optimization_squared_diagonal_witness :
    ((gradient_optimization 0 1 [3] [[2]]).parameters_uncertainties.getD []).getD 0 0 =
      (([[(2 : ℝ)]].getD 0 []).getD 0 0) ^ 2 :=
  gradient_optimization_squared_diagonal 0 1 [3] [[2]] 0 (by simp)

/-- Claim C5: `split()` returns one single-body model per planet, each
carrying that body's 5 parameters followed by all shared instrument
offsets, and the elementwise sum of the sub-models' radial velocities
plus the shared per-observation offsets reproduces the original model's
radial velocities plus the same offsets (exactly, over `ℝ`). -/
theorem split_resum_round_trip (fuel N K : ℕ) (ps : List ℝ)
    (hlen : ps.length = 5 * N + K) (t : List ℝ) (ids : List ℤ) :
    (DopplerOptimizationModel.mk N K ps none).split =
        (List.range N).map (fun k => DopplerOptimizationModel.mk 1 K
          ((ps.drop (5 * k)).take 5 ++ pySliceLast ps K) none) ∧
      listAdd
          (((DopplerOptimizationModel.mk N K ps none).split.map
            (fun s => DopplerOptimizationModel.radial_velocities fuel s t)).foldl listAdd
            (List.replicate t.length 0))
          ((DopplerOptimizationModel.mk N K ps none).offsets_of_instruments ids) =
        listAdd
          (DopplerOptimizationModel.radial_velocities fuel
            (DopplerOptimizationModel.mk N K ps none) t)
          ((DopplerOptimizationModel.mk N K ps none).offsets_of_instruments ids) := by
  constructor
  · rfl
  · congr 1
    have hmap : (DopplerOptimizationModel.mk N K ps none).split.map
        (fun s => DopplerOptimizationModel.radial_velocities fuel s t) =
        (List.range N).map
          (fun k => doppler_solver_slice fuel t ((ps.drop (5 * k)).take 5)) := by
      unfold DopplerOptimizationModel.split
      rw [List.map_map]
      apply List.map_congr_left
      intro k hk
      simp only [Function.comp]
      show doppler_solver_for_n_planets fuel 1 t
          ((ps.drop (5 * k)).take 5 ++ pySliceLast ps K) =
        doppler_solver_slice fuel t ((ps.drop (5 * k)).take 5)
      rw [n_planets_one_eq]
      congr 1
      apply List.take_left'
      rw [List.length_take, List.length_drop]
      simp only [List.mem_range] at hk
      omega
    rw [hmap]
    rfl

/-- Witness for C5: a concrete two-planet, one-instrument model split
into its per-planet sub-models. -/
theorem split_resum_round_trip_witness :
    (DopplerOptimizationModel.mk 2 1 [1, 2, 3, 4, 5, 6, 7, 8, 9, 10, 11] none).split =
      (List.range 2).map (fun k => DopplerOptimizationModel.mk 1 1
        (([1, 2, 3, 4, 5, 6, 7, 8, 9, 10, 11].drop (5 * k)).take 5 ++
          pySliceLast [1, 2, 3, 4, 5, 6, 7, 8, 9, 10, 11] 1) none) :=
  (split_resum_round_trip 0 2 1 [1, 2, 3, 4, 5, 6, 7, 8, 9, 10, 11] (by simp) [] []).1

/-- Claim C3 (code defect): `quality_of_the_fit` performs the division
`sum((residues/uncertainties)**2) / (count - parameters_count - 1)` with
no degrees-of-freedom guard.  On a dataset whose observation count
equals the parameter count (seven observations against a zero-planet,
seven-offset model) the denominator is `-1` and the function returns the
meaningless negative reduced chi-square `-7` instead of reporting a
fit-degenerate condition. -/
theorem quality_of_the_fit_degenerate_divides :
    (ObservationsData.mk [0, 1, 2, 3, 4, 5, 6] [0, 0, 0, 0, 0, 0, 0]
        [1, 1, 1, 1, 1, 1, 1] [0, 1, 2, 3, 4, 5, 6]).count =
      (DopplerOptimizationModel.mk 0 7 [1, 1, 1, 1, 1, 1, 1] none).parameters_count ∧
    DopplerOptimizationModel.quality_of_the_fit 0
        (DopplerOptimizationModel.mk 0 7 [1, 1, 1, 1, 1, 1, 1] none)
        (ObservationsData.mk [0, 1, 2, 3, 4, 5, 6] [0, 0, 0, 0, 0, 0, 0]
          [1, 1, 1, 1, 1, 1, 1] [0, 1, 2, 3, 4, 5, 6]) = -7 := by
  constructor
  · rfl
  · have hoff : (DopplerOptimizationModel.mk 0 7 [1, 1, 1, 1, 1, 1, 1]
        none).offsets_of_instruments [0, 1, 2, 3, 4, 5, 6] = [1, 1, 1, 1, 1, 1, 1] := rfl
    have hrv : DopplerOptimizationModel.radial_velocities 0
        (DopplerOptimizationModel.mk 0 7 [1, 1, 1, 1, 1, 1, 1] none) [0, 1, 2, 3, 4, 5, 6] =
        [0, 0, 0, 0, 0, 0, 0] := rfl
    unfold DopplerOptimizationModel.quality_of_the_fit DopplerOptimizationModel.residues_array
    rw [hrv, hoff]
    unfold DopplerOptimizationModel.parameters_count ObservationsData.count
      listAdd listSub listDiv
    norm_num [List.zipWith]

theorem mem_insertByTime {x r : ℝ × ℝ × ℝ × ℝ} :
    ∀ {l : List (ℝ × ℝ × ℝ × ℝ)}, x ∈ insertByTime r l ↔ x = r ∨ x ∈ l := by
  intro l
  induction l with
  | nil => simp [insertByTime]
  | cons s rest ih =>
    unfold insertByTime
    split
    · simp [or_comm, or_assoc, or_left_comm]
    · simp only [List.mem_cons, ih]
      tauto

theorem mem_sortByTime {x : ℝ × ℝ × ℝ × ℝ} :
    ∀ {l : List (ℝ × ℝ × ℝ × ℝ)}, x ∈ sortByTime l ↔ x ∈ l := by
  intro l
  induction l with
  | nil => simp [sortByTime]
  | cons s rest ih =>
    show x ∈ insertByTime s (sortByTime rest) ↔ _
    rw [mem_insertByTime]
    simp [ih]

/-- Counterexample for C9: loading two observations with instrument id
columns `0` and `5` (default options) stores the ids `[0, 5]` while
`telescopes_count = 2`, so the stored ids are not the dense range
`0..telescopes_count - 1`. -/
theorem load_data_ids_not_dense_counterexample :
    ∃ obs : ObservationsData,
      ObservationsData.load_data [(1, 0, 1, 0), (2, 0, 1, 5)] true false false true 0 =
          some obs ∧
        obs.telescopes_count = 2 ∧
        ¬ ∀ i ∈ obs.ids_of_telescopes, 0 ≤ i ∧ i < (obs.telescopes_count : ℤ) := by
  have hsort : sortByTime [((1 : ℝ), (0 : ℝ), (1 : ℝ), (0 : ℝ)), (2, 0, 1, 5)] =
      [((1 : ℝ), (0 : ℝ), (1 : ℝ), (0 : ℝ)), (2, 0, 1, 5)] := by
    have h1 : insertByTime ((2 : ℝ), (0 : ℝ), (1 : ℝ), (5 : ℝ)) [] =
        [((2 : ℝ), (0 : ℝ), (1 : ℝ), (5 : ℝ))] := rfl
    show insertByTime _ (insertByTime _ []) = _
    rw [h1]
    unfold insertByTime
    rw [if_pos (by norm_num)]
  refine ⟨⟨[1, 2], [0, 0],
      [Real.sqrt (1 ^ 2 + 0 ^ 2), Real.sqrt (1 ^ 2 + 0 ^ 2)], [0, 5]⟩, ?_, ?_, ?_⟩
  · unfold ObservationsData.load_data
    rw [if_neg (by simp)]
    simp only [if_true, if_false, Bool.false_eq_true, hsort, List.map_cons, List.map_nil]
    unfold pyInt
    norm_num
  · show ([(0 : ℤ), 5].dedup).length = 2
    decide
  · intro hall
    have h5 := hall 5 (by simp)
    have : ((5 : ℤ) < ([(0 : ℤ), 5].dedup).length) := h5.2
    revert this
    decide

/-- Claim C9 amended: `load_data` converts the instrument-id column to
integers by truncation but performs no remapping, so every stored id is
the truncation of an id value appearing in some input row; the ids form
the dense range `0..telescopes_count - 1` only when the input file's ids
already do. -/
theorem load_data_ids_are_cast_only (rows : List (ℝ × ℝ × ℝ × ℝ))
    (so sm ck sj : Bool) (jv : ℝ) (obs : ObservationsData)
    (h : ObservationsData.load_data rows so sm ck sj jv = some obs) :
    ∀ i ∈ obs.ids_of_telescopes, ∃ r ∈ rows, i = pyInt r.2.2.2 := by
  intro i hi
  unfold ObservationsData.load_data at h
  split at h
  · cases h
  · rw [Option.some.injEq] at h
    subst h
    simp only [List.mem_map] at hi
    obtain ⟨r, hr, hcast⟩ := hi
    refine ⟨r, ?_, hcast.symm⟩
    by_cases hso : so = true
    · rw [if_pos hso] at hr
      exact mem_sortByTime.mp hr
    · rw [if_neg hso] at hr
      exact hr

/-- Witness for C9 amended: one concrete loaded row. -/
theorem load_data_ids_are_cast_only_witness :
    ∃ r ∈ [((0 : ℝ), (0 : ℝ), (1 : ℝ), (0 : ℝ))], (0 : ℤ) = pyInt r.2.2.2 := by
  have hsort : sortByTime [((0 : ℝ), (0 : ℝ), (1 : ℝ), (0 : ℝ))] =
      [((0 : ℝ), (0 : ℝ), (1 : ℝ), (0 : ℝ))] := rfl
  have hload : ObservationsData.load_data [((0 : ℝ), (0 : ℝ), (1 : ℝ), (0 : ℝ))]
      true false false true 0 =
      some ⟨[0], [0], [Real.sqrt (1 ^ 2 + 0 ^ 2)], [0]⟩ := by
    unfold ObservationsData.load_data
    rw [if_neg (by simp)]
    simp only [if_true, if_false, Bool.false_eq_true, hsort, List.map_cons, List.map_nil]
    unfold pyInt
    norm_num
  refine load_data_ids_are_cast_only [((0 : ℝ), (0 : ℝ), (1 : ℝ), (0 : ℝ))]
    true false false true 0 _ hload 0 ?_
  simp

/-- A lower-bound-only pair `(min, None)` from the decorator's bound
list is satisfied exactly by values at least `min`. -/
theorem check_lower_bound {v c : ℝ} (h : c ≤ v) :
    check_the_single_bound v (some c, none) := by
  constructor
  · intro m hm
    simp only [Option.mem_def, Option.some.injEq] at hm
    subst hm
    exact h
  · intro q hq
    simp at hq

/-- Claim C10: with eccentricity exactly `0` the Kepler solver returns
the reduced mean anomaly `M mod 2π` immediately (the residual at the
initial guess is exactly `0`, so no Newton update runs), and the
circular-orbit model therefore evaluates every observation with
eccentric anomaly `E = M mod 2π`. -/
theorem kepler_zero_eccentricity_identity (M ε : ℝ) (fuel : ℕ)
    (hε : 0 < ε) (hfuel : 1 ≤ fuel) (tau K P : ℝ)
    (htau : 0 ≤ tau) (hK : 0 ≤ K) (hP : 0 ≤ P) (time : List ℝ) :
    kepler_equation_solver M 0 ε fuel = some (realMod M (2 * Real.pi)) ∧
      doppler_solver_for_circular_orbit fuel time tau K P =
        time.map (fun t =>
          K * Real.cos (2 * Real.arctan
            (Real.tan (realMod (P * (t - tau)) (2 * Real.pi) / 2)))) := by
  have hzero : ∀ x : ℝ, kepler_function x 0 x = 0 := by
    intro x
    unfold kepler_function
    ring
  have h2π : (0 : ℝ) < 2 * Real.pi := by
    have := Real.pi_pos
    linarith
  constructor
  · obtain ⟨n, rfl⟩ : ∃ n, fuel = n + 1 := ⟨fuel - 1, by omega⟩
    show (if |kepler_function (realMod M (2 * Real.pi)) 0 (realMod M (2 * Real.pi))| < ε
        then some (realMod M (2 * Real.pi))
        else keplerLoop (realMod M (2 * Real.pi)) 0 ε n
          (kepler_newton_step (realMod M (2 * Real.pi)) 0 (realMod M (2 * Real.pi)))) =
      some (realMod M (2 * Real.pi))
    rw [if_pos]
    rw [hzero, abs_zero]
    exact hε
  · have hb : check_all_bounds [tau, K, P] circular_bounds := by
      intro p hp
      simp only [circular_bounds, List.zip_cons_cons, List.zip_nil_right, List.mem_cons,
        List.not_mem_nil, or_false] at hp
      rcases hp with h | h | h <;> subst h <;>
        exact check_lower_bound (by assumption)
    unfold doppler_solver_for_circular_orbit check_the_bounds_of_arguments
    rw [if_pos hb]
    show circular_core fuel time tau K P = _
    unfold circular_core
    apply List.map_congr_left
    intro t ht
    have hMt : realMod (realMod (P * (t - tau)) (2 * Real.pi)) (2 * Real.pi) =
        realMod (P * (t - tau)) (2 * Real.pi) :=
      realMod_eq_self (realMod_nonneg h2π) (realMod_lt h2π)
    have hrun : keplerRun (realMod (P * (t - tau)) (2 * Real.pi)) 0 (1 / 10 ^ 10) fuel =
        realMod (P * (t - tau)) (2 * Real.pi) := by
      unfold keplerRun
      rw [hMt]
      cases fuel with
      | zero => rfl
      | succ n =>
        show (if |kepler_function (realMod (P * (t - tau)) (2 * Real.pi)) 0
            (realMod (P * (t - tau)) (2 * Real.pi))| < 1 / 10 ^ 10
          then realMod (P * (t - tau)) (2 * Real.pi)
          else keplerGo (realMod (P * (t - tau)) (2 * Real.pi)) 0 (1 / 10 ^ 10) n
            (kepler_newton_step (realMod (P * (t - tau)) (2 * Real.pi)) 0
              (realMod (P * (t - tau)) (2 * Real.pi)))) =
          realMod (P * (t - tau)) (2 * Real.pi)
        rw [if_pos]
        rw [hzero, abs_zero]
        norm_num
    show K * Real.cos (2 * Real.arctan (Real.tan
        (keplerRun (realMod (P * (t - tau)) (2 * Real.pi)) 0 (1 / 10 ^ 10) fuel / 2))) = _
    rw [hrun]

/-- Witness for C10: concrete admissible inputs. -/
theorem kepler_zero_eccentricity_identity_witness :
    kepler_equation_solver 0 0 1 1 = some (realMod 0 (2 * Real.pi)) ∧
      doppler_solver_for_circular_orbit 1 [] 0 0 0 =
        [].map (fun t =>
          (0 : ℝ) * Real.cos (2 * Real.arctan
            (Real.tan (realMod (0 * (t - 0)) (2 * Real.pi) / 2)))) :=
  kepler_zero_eccentricity_identity 0 1 1 (by norm_num) le_rfl 0 0 0 le_rfl le_rfl le_rfl []
